import Mathlib

/-!
Verification development for the steinbot repository: a shallow embedding of the
Next.js API route handlers (`graph-rag`, `chat`, `system-prompts`, `tts`) and of the
string-sanitization utilities (`frontend/src/utils/sanitization.ts`), together with
theorems settling the specification claims about retrieval degradation, ingestion
reporting, truncation, error propagation, prompt-store invariants and sanitizer
algebra.

JavaScript strings are modelled as Lean `String` / `List Char` (UTF-16 code-unit
subtleties do not affect any property proved here).  Asynchronous subprocess calls
are modelled by enumerating the outcomes the route code distinguishes (exit code 0
with parseable/unparseable stdout, nonzero exit, process error event, timer firing),
and each handler is a pure function of its request body and those outcomes.
-/

set_option maxRecDepth 8000

namespace SteinBot

/-! ## JavaScript string primitives -/

/-- The character set removed by JavaScript `String.prototype.trim`
(WhiteSpace ∪ LineTerminator). -/
def isJsWhitespace (c : Char) : Bool :=
  decide (c.toNat ∈ [9, 10, 11, 12, 13, 32, 160, 0x1680, 0x2000, 0x2001, 0x2002,
    0x2003, 0x2004, 0x2005, 0x2006, 0x2007, 0x2008, 0x2009, 0x200A, 0x2028, 0x2029,
    0x202F, 0x205F, 0x3000, 0xFEFF])

def trimLeft (l : List Char) : List Char := l.dropWhile isJsWhitespace

def trimRight (l : List Char) : List Char := (l.reverse.dropWhile isJsWhitespace).reverse

/-- JavaScript `s.trim()` on the character list of `s`. -/
def jsTrim (l : List Char) : List Char := trimRight (trimLeft l)

/-- JavaScript `s.substring(0, n)`. -/
def jsSubstringTo (s : String) (n : Nat) : String := String.mk (s.data.take n)

/-! ## `sanitization.ts`: `sanitizeUserInput`

Source pipeline (`frontend/src/utils/sanitization.ts`, lines 27-39):
null-byte removal, control-character removal, global removal of `<[^>]*>`
matches, then `trim()`; non-string or falsy input short-circuits to `''`. -/

/-- Characters matched by the source regex `[\x01-\x08\x0B\x0C\x0E-\x1F\x7F-\x9F]`. -/
def isStrippedCtrl (c : Char) : Bool :=
  (1 ≤ c.toNat && c.toNat ≤ 8) || c.toNat == 11 || c.toNat == 12 ||
  (14 ≤ c.toNat && c.toNat ≤ 31) || (127 ≤ c.toNat && c.toNat ≤ 159)

/-- `.replace(/\0/g, '')`. -/
def removeNullBytes (l : List Char) : List Char := l.filter (fun c => c.toNat != 0)

/-- `.replace(/[\x01-\x08\x0B\x0C\x0E-\x1F\x7F-\x9F]/g, '')`. -/
def removeCtrlChars (l : List Char) : List Char := l.filter (fun c => !isStrippedCtrl c)

/-- Drop characters up to and including the first `>`; `none` when no `>` occurs.
This is the span `[^>]*>` consumed by one match of the tag regex. -/
def dropThroughGt : List Char → Option (List Char)
  | [] => none
  | c :: rest => if c = '>' then some rest else dropThroughGt rest

/-- Fuelled left-to-right scan implementing `.replace(/<[^>]*>/g, '')`: at a `<`,
if some `>` occurs later the whole span through the first `>` is deleted and
scanning resumes after it; a `<` with no later `>` matches nothing and is kept. -/
def removeTagsF : Nat → List Char → List Char
  | 0, l => l
  | _, [] => []
  | fuel + 1, c :: rest =>
    if c = '<' then
      match dropThroughGt rest with
      | some rest' => removeTagsF fuel rest'
      | none => c :: removeTagsF fuel rest
    else c :: removeTagsF fuel rest

/-- `.replace(/<[^>]*>/g, '')` (the fuel `length + 1` always suffices). -/
def removeTags (l : List Char) : List Char := removeTagsF (l.length + 1) l

/-- A JavaScript argument that is either a string or a non-string value
(`null`, `undefined`, a number, an object, ...). -/
inductive JsStringArg where
  | str (s : List Char)
  | nonString

/-- `sanitizeUserInput` from `sanitization.ts`: non-string or empty (falsy) input
returns `''`; otherwise remove null bytes, control characters and HTML tags,
then trim. -/
def sanitizeUserInput : JsStringArg → List Char
  | .nonString => []
  | .str s =>
    if s = [] then []
    else jsTrim (removeTags (removeCtrlChars (removeNullBytes s)))

/-- The list decomposes into a `<`-free part followed by a `>`-free part;
equivalently the tag regex `<[^>]*>` has no match in it. -/
def NoTagMatch (l : List Char) : Prop :=
  ∃ a b, l = a ++ b ∧ '<' ∉ a ∧ '>' ∉ b

/-- `sub` occurs as a contiguous substring of `l`. -/
def occursIn (sub l : List Char) : Prop := ∃ a b, l = a ++ sub ++ b

/-! ## Prompt store (`lib/prompts-data`) and the `system-prompts` routes

Embedded from the `lib/prompts-data` source (the second document concatenated into
`src/frontend/src/lib/tts-service.ts`, lines 376-485).  The store is the JSON file
`data/system-prompts.json`: `readPrompts` seeds and writes a default prompt when
the file is missing, returns the parsed list when it is readable, and falls back
to `[]` when reading or parsing throws.  `createPrompt` generates its id from the
clock and RNG (`Date.now().toString() + Math.random().toString(36).substr(2, 9)`);
that environment value is the `newId` parameter here, so every theorem below holds
for every id the generator could produce.  The `new Date().toISOString()` stamps
are likewise the `now` parameters.  `writePrompts` failures rethrow to the route
handlers' catch (a 500 response); a failed write is not modelled as a state
transition. -/

structure SystemPrompt where
  id : String
  name : String
  content : String
  createdAt : String
  updatedAt : String
deriving DecidableEq

/-- The state of `data/system-prompts.json`. -/
inductive PromptsFile where
  | missing
  | stored (prompts : List SystemPrompt)
  | unreadable
deriving DecidableEq

def DEFAULT_PROMPT_CONTENT : String :=
  "# Default System Prompt\n\nThis is a default system prompt. You can create and manage multiple system prompts from the UI.\n\n## Usage\n- Create new prompts for different use cases\n- Switch between prompts in conversations\n- Edit and delete prompts as needed\n"

def defaultPrompt (now : String) : SystemPrompt :=
  ⟨"default", "Default System Prompt", DEFAULT_PROMPT_CONTENT, now, now⟩

/-- `readPrompts` (tts-service.ts lines 398-427): missing file seeds (and writes)
the default prompt; a readable file yields its parsed list; a read/parse error is
caught and yields `[]`.  Returns the list with the resulting file state. -/
def readPrompts (file : PromptsFile) (now : String) :
    List SystemPrompt × PromptsFile :=
  match file with
  | .missing => ([defaultPrompt now], .stored [defaultPrompt now])
  | .stored prompts => (prompts, .stored prompts)
  | .unreadable => ([], .unreadable)

/-- `getPromptById` (lines 441-444): `readPrompts().find(p => p.id === id) || null`. -/
def getPromptById (file : PromptsFile) (now : String) (id : String) :
    Option SystemPrompt × PromptsFile :=
  ((readPrompts file now).1.find? (fun p => p.id = id), (readPrompts file now).2)

/-- `createPrompt` (lines 447-459): read, push the new prompt, write. -/
def createPrompt (file : PromptsFile) (now newId name content : String) :
    SystemPrompt × PromptsFile :=
  ((⟨newId, name, content, now, now⟩ : SystemPrompt),
   .stored ((readPrompts file now).1 ++ [⟨newId, name, content, now, now⟩]))

/-- The in-place update `prompts[index] = ...` at the first index whose id
matches (`findIndex`). -/
def replaceFirstById (prompts : List SystemPrompt) (id name content now : String) :
    List SystemPrompt :=
  match prompts with
  | [] => []
  | p :: rest =>
    if p.id = id then ⟨p.id, name, content, p.createdAt, now⟩ :: rest
    else p :: replaceFirstById rest id name content now

/-- `updatePrompt` (lines 462-475): read, find the first matching index (null when
absent), replace it keeping `id`/`createdAt` and stamping `updatedAt`, write. -/
def updatePrompt (file : PromptsFile) (now id name content : String) :
    Option SystemPrompt × PromptsFile :=
  match (readPrompts file now).1.find? (fun p => p.id = id) with
  | none => (none, (readPrompts file now).2)
  | some p =>
    (some ⟨p.id, name, content, p.createdAt, now⟩,
     .stored (replaceFirstById (readPrompts file now).1 id name content now))

/-- `deletePrompt` (lines 478-485): read, filter the id out; when nothing was
removed return `false` without writing, otherwise write the filtered list. -/
def deletePrompt (file : PromptsFile) (now id : String) : Bool × PromptsFile :=
  let r := readPrompts file now
  let filtered := r.1.filter (fun p => p.id ≠ id)
  if filtered.length = r.1.length then (false, r.2)
  else (true, .stored filtered)

inductive PromptRouteResult where
  | ok
  | okDeleted
  | badRequest (msg : String)
  | notFound
deriving DecidableEq

/-- `DELETE /api/system-prompts/[id]`: the guard `id === 'default'` returns a 400
before `deletePrompt` is invoked. -/
def deletePromptRoute (file : PromptsFile) (now : String) (id : String) :
    PromptsFile × PromptRouteResult :=
  if id = "default" then (file, .badRequest "Cannot delete the default system prompt")
  else
    let r := deletePrompt file now id
    if r.1 then (r.2, .okDeleted) else (r.2, .notFound)

/-- `POST /api/system-prompts` (empty string is falsy, hence rejected). -/
def createPromptRoute (file : PromptsFile) (now newId name content : String) :
    PromptsFile × PromptRouteResult :=
  if name = "" then (file, .badRequest "Name is required and must be a string")
  else if content = "" then (file, .badRequest "Content is required and must be a string")
  else ((createPrompt file now newId name content).2, .ok)

/-- `PUT /api/system-prompts/[id]`. -/
def updatePromptRoute (file : PromptsFile) (now id name content : String) :
    PromptsFile × PromptRouteResult :=
  if name = "" then (file, .badRequest "Name is required and must be a string")
  else if content = "" then (file, .badRequest "Content is required and must be a string")
  else
    let r := updatePrompt file now id name content
    match r.1 with
    | none => (r.2, .notFound)
    | some _ => (r.2, .ok)

/-- One public prompt-store operation, as exposed by the HTTP interface, together
with the clock/RNG values of its invocation. -/
inductive PromptOp where
  | create (now newId name content : String)
  | update (now id name content : String)
  | del (now id : String)

def applyPromptOp (file : PromptsFile) : PromptOp → PromptsFile
  | .create now newId name content => (createPromptRoute file now newId name content).1
  | .update now id name content => (updatePromptRoute file now id name content).1
  | .del now id => (deletePromptRoute file now id).1

def applyPromptOps (file : PromptsFile) (ops : List PromptOp) : PromptsFile :=
  ops.foldl applyPromptOp file

/-- The prompt file still holds (or, when missing, will be reseeded with) the
default prompt. -/
def hasDefault : PromptsFile → Prop
  | .missing => True
  | .stored prompts => ∃ p ∈ prompts, p.id = "default"
  | .unreadable => False

/-! ## Search-result formatting shared by the `graph-rag` and `chat` routes -/

/-- One parsed row of `chat_history_manager.py search` output. -/
structure SearchRow where
  session_id : String
  session_title : String
  message_index : Nat
  role : String
  content : String
  relevance_score : ℚ
  conversation_created : String
deriving DecidableEq

def digitChar (n : Nat) : Char :=
  if n = 0 then '0' else if n = 1 then '1' else if n = 2 then '2'
  else if n = 3 then '3' else if n = 4 then '4' else if n = 5 then '5'
  else if n = 6 then '6' else if n = 7 then '7' else if n = 8 then '8' else '9'

def natCharsAux : Nat → Nat → List Char → List Char
  | 0, _, acc => acc
  | fuel + 1, n, acc =>
    if n < 10 then digitChar (n % 10) :: acc
    else natCharsAux fuel (n / 10) (digitChar (n % 10) :: acc)

/-- Decimal digits of `n`, most significant first. -/
def natToChars (n : Nat) : List Char := natCharsAux (n + 1) n []

def intToChars (i : Int) : List Char :=
  match i with
  | .ofNat m => natToChars m
  | .negSucc m => '-' :: natToChars (m + 1)

/-- JavaScript `x.toFixed(1)`, modelled over exact rationals: the nearest multiple
of 1/10 (ties rounded up), rendered with one digit after the point.  IEEE-754
double rounding in the source is abstracted to exact rational arithmetic; no
claim proved here depends on the rendered score. -/
def toFixedOne (q : ℚ) : List Char :=
  let n : Int := Int.ediv (q.num * 20 + (q.den : Int)) (2 * (q.den : Int))
  intToChars (Int.ediv n 10) ++ '.' :: intToChars (Int.emod n 10)

/-- ``${result.content.substring(0, 400)}${result.content.length > 400 ? '...' : ''}``. -/
def truncatedContent (content : String) : String :=
  jsSubstringTo content 400 ++ (if 400 < content.data.length then "..." else "")

/-- The per-item context string built for language-model consumption (identical in
`graph-rag/route.ts` lines 81-86 and the chat route). -/
def formatContextItem (r : SearchRow) : String :=
  "From conversation \"" ++ r.session_title ++ "\":\n\nRole: " ++ r.role ++
  "\nContent: " ++ truncatedContent r.content ++
  "\n\nRelevance: " ++ String.mk (toFixedOne (r.relevance_score * 100)) ++ "%"

/-- The enhanced metadata object built per result row (`graph-rag/route.ts`
lines 91-99); note `content_preview` always appends `"..."`. -/
structure SearchMetadata where
  session_id : String
  session_title : String
  message_index : Nat
  role : String
  content_preview : String
  relevance_score : ℚ
  conversation_created : String
deriving DecidableEq

def metadataOf (r : SearchRow) : SearchMetadata :=
  ⟨r.session_id, r.session_title, r.message_index, r.role,
   jsSubstringTo r.content 100 ++ "...", r.relevance_score, r.conversation_created⟩

/-! ## `POST /api/graph-rag` (retrieval search route) -/

/-- Outcomes of the spawned `python3 chat_history_manager.py search` call that
`runPythonScript` in `graph-rag/route.ts` distinguishes. -/
inductive PyProcOutcome where
  | timeout
  | exitOkParsed (rows : List SearchRow)
  | exitOkUnparseable (parseErr : String)
  | exitNonzero (code : Int) (stderr stdout : String)
  | procError (msg : String)
deriving DecidableEq

structure ScriptSearchResult where
  context : Option (List String)
  metadata : Option (List SearchMetadata)
  error : Option String
deriving DecidableEq

/-- The single overall timeout `runPythonScript` arms around the subprocess. -/
def RETRIEVAL_TIMEOUT_MS : Nat := 30000

/-- `runPythonScript` of `graph-rag/route.ts` (lines 50-120). -/
def runPythonScriptSearch : PyProcOutcome → ScriptSearchResult
  | .timeout => ⟨none, none, some "Python script timed out after 30 seconds"⟩
  | .exitOkParsed rows =>
      ⟨some (rows.map formatContextItem), some (rows.map metadataOf), none⟩
  | .exitOkUnparseable parseErr =>
      ⟨none, none, some ("Failed to parse Python script output: " ++ parseErr)⟩
  | .exitNonzero code stderr stdout =>
      ⟨none, none,
       some (if stderr = "" then
               "Python script failed with code " ++ toString code ++ ". stdout: " ++ stdout
             else stderr)⟩
  | .procError msg => ⟨none, none, some msg⟩

inductive SearchRouteResult where
  | badRequest (error : String) (status : Nat)
  | errorResponse (error : String) (status : Nat)
  | ok (context : Option (List String)) (query : String) (limit : Nat)
deriving DecidableEq

/-- The `POST` handler of `graph-rag/route.ts` (lines 10-48); note the success
response body is `context/query/limit` only - the metadata array is dropped. -/
def graphRagSearchPOST (query : Option String) (limit : Nat) (outcome : PyProcOutcome) :
    SearchRouteResult :=
  match query with
  | none => .badRequest "Query is required and must be a string" 400
  | some q =>
    if q = "" then .badRequest "Query is required and must be a string" 400
    else
      match (runPythonScriptSearch outcome).error with
      | some _ => .errorResponse "Failed to retrieve chat context" 500
      | none => .ok (runPythonScriptSearch outcome).context q limit

/-! ## `POST /api/chat` (the reasoning/answer route, Ollama-backed) -/

structure ChatMessage where
  role : String
  content : String
deriving DecidableEq

/-- `[...conversationMessages].reverse().find(m => m.role === 'user')?.content || ''`. -/
def lastUserMessage (msgs : List ChatMessage) : String :=
  match msgs.reverse.find? (fun m => m.role = "user") with
  | some m => m.content
  | none => ""

/-- Outcomes of the in-route `spawn('python3', [script, 'search', q, '3'])` promise
(chat route lines 79-120); unlike the graph-rag route there is no timer here. -/
inductive ChatSearchOutcome where
  | exitOkParsed (rows : List SearchRow)
  | exitOkUnparseable
  | exitNonzero (stderr : String)
  | procError (msg : String)
deriving DecidableEq

/-- The retrieval step failed: subprocess error, nonzero exit, or unparseable output. -/
def ChatSearchOutcome.failed : ChatSearchOutcome → Bool
  | .exitOkParsed _ => false
  | _ => true

structure ChatGraphResult where
  context : Option (List String)
  error : Option String
deriving DecidableEq

/-- Resolution of the chat route's search promise (it only ever resolves). -/
def chatGraphSearch : ChatSearchOutcome → ChatGraphResult
  | .exitOkParsed rows => ⟨some (rows.map formatContextItem), none⟩
  | .exitOkUnparseable => ⟨none, some "Failed to parse chat history search output"⟩
  | .exitNonzero stderr =>
      ⟨none, some (if stderr = "" then "Chat history search script failed" else stderr)⟩
  | .procError msg => ⟨none, some msg⟩

def NO_CONTEXT_NOTE : String :=
  "\n\n(Note: No relevant conversation context found for this query.)"

/-- The note of the chat route's `catch` arm; reachable only if the awaited search
promise itself throws, which the promise construction never does. -/
def RETRIEVAL_FAILED_NOTE : String :=
  "\n\n(Note: Conversation context retrieval failed, proceeding without additional context.)"

def contextHeader : String :=
  "\n\nYou have access to relevant context from previous conversations:\n\n"

def contextFooter : String :=
  "\n\nUse this context to maintain continuity and reference previous discussions when relevant."

/-- ``graphResult.context.map((ctx, i) => `[i+1] ctx`).join('\n\n')``. -/
def numberedContextBlock (ctxs : List String) : String :=
  String.intercalate "\n\n"
    ((ctxs.enum).map (fun p => "[" ++ toString (p.1 + 1) ++ "] " ++ p.2))

/-- Chat route lines 122-136: context present and nonempty extends the system
prompt with the numbered context block; otherwise (including every error
resolution) the no-context note is appended. -/
def enhancedSystemPrompt (base : String) (graphRAG : Bool) (res : ChatGraphResult) :
    String :=
  if graphRAG then
    match res.context with
    | some ctxs =>
        if 0 < ctxs.length then base ++ contextHeader ++ numberedContextBlock ctxs ++ contextFooter
        else base ++ NO_CONTEXT_NOTE
    | none => base ++ NO_CONTEXT_NOTE
  else base

structure ChatRequestBody where
  message : Option String
  messages : Option (List ChatMessage)
  model : Option String
  promptId : Option String
  graphRAG : Bool
deriving DecidableEq

inductive ChatRouteResult where
  | badRequest (body : String) (status : Nat)
  | errorResponse (body : String) (status : Nat)
  | stream (ollamaModel : String) (promptMessages : List ChatMessage)
deriving DecidableEq

/-- `promptId || 'default'`. -/
def selectedPromptId (body : ChatRequestBody) : String :=
  match body.promptId with
  | some p => if p = "" then "default" else p
  | none => "default"

def DEFAULT_MODEL : String := "mistral-small3.2:latest"

/-- `model || 'mistral-small3.2:latest'`. -/
def selectedModel (body : ChatRequestBody) : String :=
  match body.model with
  | some m => if m = "" then DEFAULT_MODEL else m
  | none => DEFAULT_MODEL

/-- The `POST` handler of the chat route (`unnamed/part_008`, lines 42-222), as a
function of the prompt file, the request body, the retrieval-subprocess outcome
and whether the Ollama HTTP call succeeds.  A `.stream` result carries the
messages handed to Ollama; the streamed model output is pumped through verbatim. -/
def chatPOST (file : PromptsFile) (now : String) (body : ChatRequestBody)
    (searchOutcome : ChatSearchOutcome) (ollamaOk : Bool) : ChatRouteResult :=
  let convo? : Option (Bool × List ChatMessage) :=
    match body.messages with
    | some msgs => some (true, msgs)
    | none =>
      match body.message with
      | some m => if m = "" then none else some (false, [⟨"user", m⟩])
      | none => none
  match convo? with
  | none => .badRequest "Either message or messages array is required" 400
  | some (isConvMode, conversationMessages) =>
    match (getPromptById file now (selectedPromptId body)).1 with
    | none => .errorResponse "System prompt not found" 500
    | some promptData =>
      let enhanced :=
        enhancedSystemPrompt promptData.content body.graphRAG (chatGraphSearch searchOutcome)
      let ollamaMessages :=
        if isConvMode then ⟨"system", enhanced⟩ :: conversationMessages
        else [⟨"system", enhanced⟩, ⟨"user", lastUserMessage conversationMessages⟩]
      if ollamaOk then .stream (selectedModel body) ollamaMessages
      else .errorResponse "Failed to get response from Ollama" 500

/-- Chat route lines 186-216: the 200 response is a `ReadableStream` that pumps
`ollamaResponse.body` through unchanged - the body delivered to the caller is
exactly what the model streams; the route adds nothing (no flag, no note) to it. -/
def chatStreamResponseBody (modelOutput : String) : String := modelOutput

/-- `Chat.tsx` `sendMessage`: `currentMessages = [...messages, userMessage]`,
`chatHistory = currentMessages.slice(0, -1)` - the full prior history, untrimmed. -/
def chatTsxHistory (messages : List ChatMessage) (userMessage : ChatMessage) :
    List ChatMessage :=
  (messages ++ [userMessage]).dropLast

/-- `unnamed/part_003` `handleSubmit`: `messages.slice(-4)` - the last four turns. -/
def chatInterfaceHistory (messages : List ChatMessage) : List ChatMessage :=
  messages.drop (messages.length - 4)

/-! ## `POST /api/graph-rag` (ingestion route, second file of `route.ts`) -/

structure IngestSession where
  id : String
  title : String
  messages : Option (List ChatMessage)
  model : String
  promptId : String
deriving DecidableEq

/-- `message.role && message.content && message.content.trim().length > 0`. -/
def isValidIngestMessage (m : ChatMessage) : Bool :=
  (m.role != "") && (m.content != "") && !(jsTrim m.content.data).isEmpty

/-- The per-session validation/filtering of the ingest handler (lines 219-247):
skip sessions with falsy id or missing messages array, skip empty message arrays,
filter out invalid messages, skip sessions with no valid message left.  (The JS
checks id before messages; the `||` order does not affect the result.) -/
def validSessionEntry (s : IngestSession) : Option IngestSession :=
  match s.messages with
  | none => none
  | some msgs =>
    if s.id = "" then none
    else if msgs.length = 0 then none
    else
      let valid := msgs.filter isValidIngestMessage
      if valid.length = 0 then none
      else some ⟨s.id, s.title, some valid, s.model, s.promptId⟩

def validSessionsOf (sessions : List IngestSession) : List IngestSession :=
  sessions.filterMap validSessionEntry

/-- The object shape `runPythonScript` of the ingest route resolves with. -/
structure ScriptIngestResult where
  processed_count : Option Nat
  message : Option String
  error : Option String
deriving DecidableEq

/-- Outcomes of the spawned `python3 chat_history_manager.py ingest` call. -/
inductive IngestScriptOutcome where
  | timeout
  | okParsed (r : ScriptIngestResult)
  | okEmpty
  | okPlainText (stdoutNum : Nat) (text : String)
  | exitNonzero (code : Int) (stderr stdout : String)
  | procError (msg : String)
deriving DecidableEq

def INGEST_TIMEOUT_MS : Nat := 60000

/-- `runPythonScript` of the ingest route (lines 142-198). -/
def runPythonScriptIngest : IngestScriptOutcome → ScriptIngestResult
  | .timeout => ⟨none, none, some "Python script timed out after 60 seconds"⟩
  | .okParsed r => r
  | .okEmpty => ⟨some 0, none, none⟩
  | .okPlainText n text => ⟨some n, some text, none⟩
  | .exitNonzero code stderr stdout =>
      ⟨none, none,
       some (if stderr = "" then
               "Python script failed with code " ++ toString code ++ ". stdout: " ++ stdout
             else stderr)⟩
  | .procError msg => ⟨none, none, some msg⟩

/-- The fields of the JSON bodies the ingest handler can answer with; no response
shape carries a `skipped` or `errors` field. -/
inductive IngestRouteResult where
  | invalidSessionsField
  | noValidSessions (processed_count sessions_processed : Nat)
  | scriptMissing
  | fsFailed (details : String)
  | ingestFailed (error details : String)
  | success (message : String) (processed_count sessions_processed : Nat)
deriving DecidableEq

/-- The ingest `POST` handler (`graph-rag/route.ts`, lines 200-322). -/
def ingestChatHistoryPOST (chatSessions : Option (List IngestSession))
    (scriptExists fsOk : Bool) (outcome : IngestScriptOutcome) : IngestRouteResult :=
  match chatSessions with
  | none => .invalidSessionsField
  | some sessions =>
    let valid := validSessionsOf sessions
    if valid.length = 0 then .noValidSessions 0 sessions.length
    else if !scriptExists then .scriptMissing
    else if !fsOk then .fsFailed "temp file handling failed"
    else
      match (runPythonScriptIngest outcome).error with
      | some e => .ingestFailed "Failed to ingest chat history" e
      | none =>
        .success "Chat history stored as JSON and embeddings generated successfully"
          valid.length sessions.length

/-! ## `POST /api/tts` (`unnamed/part_011`) -/

inductive TtsOutcome where
  | ok (filename : String)
  | errMessage (msg : String)
deriving DecidableEq

inductive TtsRouteResult where
  | badRequest (body : String) (status : Nat)
  | ok (audioUrl message : String)
  | errorResponse (success : Bool) (error : String) (status : Nat)
deriving DecidableEq

/-- The TTS `POST` handler: on a thrown `Error` the response body is
`error: error.message` verbatim, with status 500. -/
def ttsPOST (text : Option String) (outcome : TtsOutcome) : TtsRouteResult :=
  match text with
  | none => .badRequest "Text is required" 400
  | some t =>
    if t = "" then .badRequest "Text is required" 400
    else
      match outcome with
      | .ok filename => .ok ("/audio/" ++ filename) "TTS audio generated successfully"
      | .errMessage msg => .errorResponse false msg 500

/-! ## Tag-removal lemmas -/

theorem dropThroughGt_none_iff (l : List Char) : dropThroughGt l = none ↔ '>' ∉ l := by
  induction l with
  | nil => simp [dropThroughGt]
  | cons c rest ih =>
    by_cases hc : c = '>'
    · subst hc; simp [dropThroughGt]
    · simp only [dropThroughGt, if_neg hc, ih, List.mem_cons]
      constructor
      · intro h hmem
        rcases hmem with h1 | h1
        · exact hc h1.symm
        · exact h h1
      · intro h hmem
        exact h (Or.inr hmem)

theorem dropThroughGt_sublist {l r : List Char} (h : dropThroughGt l = some r) :
    List.Sublist r l := by
  induction l with
  | nil => simp [dropThroughGt] at h
  | cons c rest ih =>
    by_cases hc : c = '>'
    · simp only [dropThroughGt, if_pos hc, Option.some.injEq] at h
      subst h
      exact (List.Sublist.refl _).cons c
    · simp only [dropThroughGt, if_neg hc] at h
      exact (ih h).cons c

theorem dropThroughGt_length {l r : List Char} (h : dropThroughGt l = some r) :
    r.length < l.length := by
  induction l with
  | nil => simp [dropThroughGt] at h
  | cons c rest ih =>
    by_cases hc : c = '>'
    · simp only [dropThroughGt, if_pos hc, Option.some.injEq] at h
      subst h
      simp
    · simp only [dropThroughGt, if_neg hc] at h
      exact Nat.lt_trans (ih h) (by simp)

theorem removeTagsF_congr : ∀ (n m : Nat) (l : List Char),
    l.length < n → l.length < m → removeTagsF n l = removeTagsF m l := by
  intro n
  induction n with
  | zero => intro m l hn _; exact absurd hn (Nat.not_lt_zero _)
  | succ k ih =>
    intro m l hn hm
    cases m with
    | zero => exact absurd hm (Nat.not_lt_zero _)
    | succ j =>
      cases l with
      | nil => rfl
      | cons c rest =>
        have hrk : rest.length < k := by simp at hn; omega
        have hrj : rest.length < j := by simp at hm; omega
        simp only [removeTagsF]
        by_cases hc : c = '<'
        · simp only [if_pos hc]
          cases hdrop : dropThroughGt rest with
          | some r' =>
            have hr := dropThroughGt_length hdrop
            exact ih j r' (Nat.lt_trans hr hrk) (Nat.lt_trans hr hrj)
          | none =>
            rw [ih j rest hrk hrj]
        · simp only [if_neg hc]
          rw [ih j rest hrk hrj]

theorem removeTags_nil : removeTags [] = [] := rfl

theorem removeTags_cons_tag {c : Char} {rest r' : List Char} (hc : c = '<')
    (h : dropThroughGt rest = some r') : removeTags (c :: rest) = removeTags r' := by
  show removeTagsF ((c :: rest).length + 1) (c :: rest) = removeTagsF (r'.length + 1) r'
  simp only [List.length_cons, removeTagsF, if_pos hc, h]
  exact removeTagsF_congr _ _ r'
    (Nat.lt_trans (dropThroughGt_length h) (Nat.lt_succ_self _)) (Nat.lt_succ_self _)

theorem removeTags_cons_no_gt {c : Char} {rest : List Char} (hc : c = '<')
    (h : dropThroughGt rest = none) : removeTags (c :: rest) = c :: removeTags rest := by
  show removeTagsF ((c :: rest).length + 1) (c :: rest) = c :: removeTagsF (rest.length + 1) rest
  simp only [List.length_cons, removeTagsF, if_pos hc, h]

theorem removeTags_cons_plain {c : Char} {rest : List Char} (hc : c ≠ '<') :
    removeTags (c :: rest) = c :: removeTags rest := by
  show removeTagsF ((c :: rest).length + 1) (c :: rest) = c :: removeTagsF (rest.length + 1) rest
  simp only [List.length_cons, removeTagsF, if_neg hc]

theorem removeTagsF_sublist : ∀ (n : Nat) (l : List Char),
    List.Sublist (removeTagsF n l) l := by
  intro n
  induction n with
  | zero => intro l; cases l <;> simp [removeTagsF]
  | succ k ih =>
    intro l
    cases l with
    | nil => simp [removeTagsF]
    | cons c rest =>
      simp only [removeTagsF]
      by_cases hc : c = '<'
      · simp only [if_pos hc]
        cases hdrop : dropThroughGt rest with
        | some r' => exact ((ih r').trans (dropThroughGt_sublist hdrop)).cons c
        | none => exact (ih rest).cons₂ c
      · simp only [if_neg hc]
        exact (ih rest).cons₂ c

theorem removeTags_sublist (l : List Char) : List.Sublist (removeTags l) l :=
  removeTagsF_sublist _ l

theorem noTagMatch_nil : NoTagMatch [] := ⟨[], [], rfl, by simp, by simp⟩

theorem noTagMatch_removeTags_aux : ∀ (n : Nat) (l : List Char), l.length ≤ n →
    NoTagMatch (removeTags l) := by
  intro n
  induction n with
  | zero =>
    intro l h
    have hl : l = [] := List.eq_nil_of_length_eq_zero (Nat.le_zero.mp h)
    subst hl
    rw [removeTags_nil]
    exact noTagMatch_nil
  | succ k ih =>
    intro l hl
    cases l with
    | nil => rw [removeTags_nil]; exact noTagMatch_nil
    | cons c rest =>
      by_cases hc : c = '<'
      · cases hdrop : dropThroughGt rest with
        | some r' =>
          rw [removeTags_cons_tag hc hdrop]
          exact ih r' (by have := dropThroughGt_length hdrop; simp at hl; omega)
        | none =>
          rw [removeTags_cons_no_gt hc hdrop]
          have hgt : '>' ∉ rest := (dropThroughGt_none_iff rest).mp hdrop
          have hgt2 : '>' ∉ removeTags rest :=
            fun hm => hgt ((removeTags_sublist rest).mem hm)
          refine ⟨[], c :: removeTags rest, rfl, by simp, ?_⟩
          intro hmem
          rcases List.mem_cons.mp hmem with h1 | h1
          · rw [hc] at h1; exact absurd h1 (by decide)
          · exact hgt2 h1
      · rw [removeTags_cons_plain hc]
        obtain ⟨a, b, heq, ha, hb⟩ := ih rest (by simp at hl; omega)
        refine ⟨c :: a, b, by rw [heq, List.cons_append], ?_, hb⟩
        intro hmem
        rcases List.mem_cons.mp hmem with h1 | h1
        · exact hc h1.symm
        · exact ha h1

theorem noTagMatch_removeTags (l : List Char) : NoTagMatch (removeTags l) :=
  noTagMatch_removeTags_aux l.length l le_rfl

theorem removeTags_of_no_gt : ∀ (l : List Char), '>' ∉ l → removeTags l = l := by
  intro l
  induction l with
  | nil => intro _; rfl
  | cons c rest ih =>
    intro h
    have hrest : '>' ∉ rest := fun hm => h (List.mem_cons_of_mem c hm)
    by_cases hc : c = '<'
    · rw [removeTags_cons_no_gt hc ((dropThroughGt_none_iff rest).mpr hrest), ih hrest]
    · rw [removeTags_cons_plain hc, ih hrest]

theorem removeTags_append_no_tag : ∀ (a b : List Char), '<' ∉ a → '>' ∉ b →
    removeTags (a ++ b) = a ++ b := by
  intro a
  induction a with
  | nil => intro b _ hb; simpa using removeTags_of_no_gt b hb
  | cons c a' ih =>
    intro b ha hb
    have hc : c ≠ '<' := fun h => ha (by rw [h]; exact List.mem_cons_self _ _)
    have ha' : '<' ∉ a' := fun hm => ha (List.mem_cons_of_mem c hm)
    rw [List.cons_append, removeTags_cons_plain hc, ih b ha' hb]

theorem removeTags_of_noTagMatch {l : List Char} (h : NoTagMatch l) :
    removeTags l = l := by
  obtain ⟨a, b, rfl, ha, hb⟩ := h
  exact removeTags_append_no_tag a b ha hb

theorem noTagMatch_of_append_right {t s : List Char} (h : NoTagMatch (t ++ s)) :
    NoTagMatch s := by
  obtain ⟨a, b, heq, ha, hb⟩ := h
  rcases List.append_eq_append_iff.mp heq with ⟨w, hw1, hw2⟩ | ⟨w, hw1, hw2⟩
  · exact ⟨w, b, hw2, fun hm => ha (by rw [hw1]; exact List.mem_append_right t hm), hb⟩
  · exact ⟨[], s, by simp, by simp,
      fun hm => hb (by rw [hw2]; exact List.mem_append_right w hm)⟩

theorem noTagMatch_of_append_left {s t : List Char} (h : NoTagMatch (s ++ t)) :
    NoTagMatch s := by
  obtain ⟨a, b, heq, ha, hb⟩ := h
  rcases List.append_eq_append_iff.mp heq with ⟨w, hw1, hw2⟩ | ⟨w, hw1, hw2⟩
  · exact ⟨s, [], by simp, fun hm => ha (by rw [hw1]; exact List.mem_append_left w hm),
      by simp⟩
  · exact ⟨a, w, hw1, ha, fun hm => hb (by rw [hw2]; exact List.mem_append_left t hm)⟩

/-! ## Trim lemmas -/

theorem trimLeft_decomp (l : List Char) :
    l = l.takeWhile isJsWhitespace ++ trimLeft l :=
  (List.takeWhile_append_dropWhile isJsWhitespace l).symm

theorem trimRight_decomp (l : List Char) :
    l = trimRight l ++ (l.reverse.takeWhile isJsWhitespace).reverse := by
  calc l = l.reverse.reverse := (List.reverse_reverse l).symm
    _ = (l.reverse.takeWhile isJsWhitespace ++ l.reverse.dropWhile isJsWhitespace).reverse := by
        rw [List.takeWhile_append_dropWhile]
    _ = (l.reverse.dropWhile isJsWhitespace).reverse ++
          (l.reverse.takeWhile isJsWhitespace).reverse := by
        rw [List.reverse_append]
    _ = trimRight l ++ (l.reverse.takeWhile isJsWhitespace).reverse := rfl

theorem sublist_of_trimLeft (l : List Char) : List.Sublist (trimLeft l) l := by
  conv_rhs => rw [trimLeft_decomp l]
  exact List.sublist_append_right _ _

theorem sublist_of_trimRight (l : List Char) : List.Sublist (trimRight l) l := by
  conv_rhs => rw [trimRight_decomp l]
  exact List.sublist_append_left _ _

theorem sublist_of_jsTrim (l : List Char) : List.Sublist (jsTrim l) l :=
  (sublist_of_trimRight (trimLeft l)).trans (sublist_of_trimLeft l)

theorem head_dropWhile_not (p : Char → Bool) : ∀ (l : List Char) (c : Char),
    (l.dropWhile p).head? = some c → p c = false := by
  intro l
  induction l with
  | nil => intro c h; simp [List.dropWhile] at h
  | cons a l' ih =>
    intro c h
    by_cases hp : p a
    · rw [List.dropWhile_cons_of_pos hp] at h
      exact ih c h
    · rw [List.dropWhile_cons_of_neg hp] at h
      simp only [List.head?_cons, Option.some.injEq] at h
      subst h
      simpa using hp

theorem head_append_of_ne_nil {xs ys : List Char} (h : xs ≠ []) :
    (xs ++ ys).head? = xs.head? := by
  cases xs with
  | nil => exact absurd rfl h
  | cons a l => rfl

theorem head_trimmed_not_ws (l : List Char) (c : Char)
    (h : (jsTrim l).head? = some c) : isJsWhitespace c = false := by
  unfold jsTrim at h
  have hne : trimRight (trimLeft l) ≠ [] := by
    intro he
    rw [he] at h
    simp at h
  have hh : (trimLeft l).head? = some c := by
    conv_lhs => rw [trimRight_decomp (trimLeft l)]
    rw [head_append_of_ne_nil hne]
    exact h
  exact head_dropWhile_not isJsWhitespace l c hh

theorem getLast_trimmed_not_ws (l : List Char) (c : Char)
    (h : (jsTrim l).getLast? = some c) : isJsWhitespace c = false := by
  unfold jsTrim trimRight at h
  rw [List.getLast?_reverse] at h
  exact head_dropWhile_not isJsWhitespace ((trimLeft l).reverse) c h

theorem dropWhile_eq_self_of_head (p : Char → Bool) (l : List Char)
    (h : ∀ c, l.head? = some c → p c = false) : l.dropWhile p = l := by
  cases l with
  | nil => rfl
  | cons a l' =>
    have := h a rfl
    simp [List.dropWhile_cons, this]

theorem trimLeft_eq_self (l : List Char)
    (h : ∀ c, l.head? = some c → isJsWhitespace c = false) : trimLeft l = l :=
  dropWhile_eq_self_of_head _ l h

theorem trimRight_eq_self (l : List Char)
    (h : ∀ c, l.getLast? = some c → isJsWhitespace c = false) : trimRight l = l := by
  have hd : l.reverse.dropWhile isJsWhitespace = l.reverse := by
    apply dropWhile_eq_self_of_head
    intro c hc
    apply h
    rwa [List.head?_reverse] at hc
  rw [trimRight, hd, List.reverse_reverse]

theorem jsTrim_eq_self (l : List Char)
    (hh : ∀ c, l.head? = some c → isJsWhitespace c = false)
    (hl : ∀ c, l.getLast? = some c → isJsWhitespace c = false) : jsTrim l = l := by
  rw [jsTrim, trimLeft_eq_self l hh, trimRight_eq_self l hl]

/-! ## Properties of the sanitizer output -/

theorem sanitizeUserInput_str (s : List Char) :
    sanitizeUserInput (JsStringArg.str s) =
      if s = [] then [] else jsTrim (removeTags (removeCtrlChars (removeNullBytes s))) :=
  rfl

theorem sanitized_no_null {v : JsStringArg} {c : Char} (h : c ∈ sanitizeUserInput v) :
    c.toNat ≠ 0 := by
  cases v with
  | nonString => simp [sanitizeUserInput] at h
  | str s =>
    by_cases hs : s = []
    · simp [sanitizeUserInput, hs] at h
    · simp only [sanitizeUserInput, if_neg hs] at h
      have h1 : c ∈ removeCtrlChars (removeNullBytes s) :=
        (removeTags_sublist _).mem ((sublist_of_jsTrim _).mem h)
      have h2 : c ∈ removeNullBytes s := List.mem_of_mem_filter h1
      have h3 := List.of_mem_filter h2
      simpa using h3

theorem sanitized_no_ctrl {v : JsStringArg} {c : Char} (h : c ∈ sanitizeUserInput v) :
    isStrippedCtrl c = false := by
  cases v with
  | nonString => simp [sanitizeUserInput] at h
  | str s =>
    by_cases hs : s = []
    · simp [sanitizeUserInput, hs] at h
    · simp only [sanitizeUserInput, if_neg hs] at h
      have h1 : c ∈ removeCtrlChars (removeNullBytes s) :=
        (removeTags_sublist _).mem ((sublist_of_jsTrim _).mem h)
      have h3 := List.of_mem_filter h1
      simpa using h3

theorem sanitized_noTagMatch (v : JsStringArg) : NoTagMatch (sanitizeUserInput v) := by
  cases v with
  | nonString => exact noTagMatch_nil
  | str s =>
    by_cases hs : s = []
    · simp only [sanitizeUserInput, if_pos hs]
      exact noTagMatch_nil
    · simp only [sanitizeUserInput, if_neg hs]
      have h0 := noTagMatch_removeTags (removeCtrlChars (removeNullBytes s))
      have h0' : NoTagMatch
          ((removeTags (removeCtrlChars (removeNullBytes s))).takeWhile isJsWhitespace ++
            trimLeft (removeTags (removeCtrlChars (removeNullBytes s)))) := by
        rw [← trimLeft_decomp]; exact h0
      have h1 := noTagMatch_of_append_right h0'
      have h1' : NoTagMatch
          (jsTrim (removeTags (removeCtrlChars (removeNullBytes s))) ++
            ((trimLeft (removeTags (removeCtrlChars (removeNullBytes s)))).reverse.takeWhile
              isJsWhitespace).reverse) := by
        rw [jsTrim, ← trimRight_decomp]; exact h1
      exact noTagMatch_of_append_left h1'

theorem sanitized_head_not_ws {v : JsStringArg} {c : Char}
    (h : (sanitizeUserInput v).head? = some c) : isJsWhitespace c = false := by
  cases v with
  | nonString => simp [sanitizeUserInput] at h
  | str s =>
    by_cases hs : s = []
    · simp [sanitizeUserInput, hs] at h
    · simp only [sanitizeUserInput, if_neg hs] at h
      exact head_trimmed_not_ws _ c h

theorem sanitized_getLast_not_ws {v : JsStringArg} {c : Char}
    (h : (sanitizeUserInput v).getLast? = some c) : isJsWhitespace c = false := by
  cases v with
  | nonString => simp [sanitizeUserInput] at h
  | str s =>
    by_cases hs : s = []
    · simp [sanitizeUserInput, hs] at h
    · simp only [sanitizeUserInput, if_neg hs] at h
      exact getLast_trimmed_not_ws _ c h

/-- Claim C10: `sanitizeUserInput` is idempotent and totally defined: for every
input, applying it twice equals applying it once; its result contains no null byte
and no leading or trailing whitespace; and every non-string or empty input yields
the empty string. -/
theorem C10_sanitizeUserInput_idempotent_total :
    (∀ v, sanitizeUserInput (JsStringArg.str (sanitizeUserInput v)) = sanitizeUserInput v) ∧
    (∀ v c, c ∈ sanitizeUserInput v → c.toNat ≠ 0) ∧
    (∀ v c, (sanitizeUserInput v).head? = some c → isJsWhitespace c = false) ∧
    (∀ v c, (sanitizeUserInput v).getLast? = some c → isJsWhitespace c = false) ∧
    sanitizeUserInput JsStringArg.nonString = [] ∧
    sanitizeUserInput (JsStringArg.str []) = [] := by
  refine ⟨?_, fun v c h => sanitized_no_null h, fun v c h => sanitized_head_not_ws h,
    fun v c h => sanitized_getLast_not_ws h, rfl, by simp [sanitizeUserInput]⟩
  intro v
  by_cases hr : sanitizeUserInput v = []
  · rw [hr]
    simp [sanitizeUserInput]
  · rw [sanitizeUserInput_str, if_neg hr]
    have e1 : removeNullBytes (sanitizeUserInput v) = sanitizeUserInput v :=
      List.filter_eq_self.mpr (fun c hc => by simpa using sanitized_no_null hc)
    have e2 : removeCtrlChars (sanitizeUserInput v) = sanitizeUserInput v :=
      List.filter_eq_self.mpr (fun c hc => by simpa using sanitized_no_ctrl hc)
    have e3 : removeTags (sanitizeUserInput v) = sanitizeUserInput v :=
      removeTags_of_noTagMatch (sanitized_noTagMatch v)
    have e4 : jsTrim (sanitizeUserInput v) = sanitizeUserInput v :=
      jsTrim_eq_self _ (fun c hc => sanitized_head_not_ws hc)
        (fun c hc => sanitized_getLast_not_ws hc)
    rw [e1, e2, e3, e4]

/-- Witness for C10 at a concrete input (a string with whitespace padding, a tag,
and plain text). -/
theorem C10_witness :
    sanitizeUserInput (JsStringArg.str (sanitizeUserInput
        (JsStringArg.str (' ' :: '<' :: 'b' :: '>' :: 'h' :: 'i' :: ' ' :: [])))) =
      sanitizeUserInput (JsStringArg.str (' ' :: '<' :: 'b' :: '>' :: 'h' :: 'i' :: ' ' :: [])) ∧
    'h'.toNat ≠ 0 ∧ isJsWhitespace 'h' = false ∧ isJsWhitespace 'i' = false :=
  ⟨C10_sanitizeUserInput_idempotent_total.1 _,
   C10_sanitizeUserInput_idempotent_total.2.1
     (JsStringArg.str (' ' :: '<' :: 'b' :: '>' :: 'h' :: 'i' :: ' ' :: [])) 'h' (by decide),
   C10_sanitizeUserInput_idempotent_total.2.2.1
     (JsStringArg.str (' ' :: '<' :: 'b' :: '>' :: 'h' :: 'i' :: ' ' :: [])) 'h' (by decide),
   C10_sanitizeUserInput_idempotent_total.2.2.2.1
     (JsStringArg.str (' ' :: '<' :: 'b' :: '>' :: 'h' :: 'i' :: ' ' :: [])) 'i' (by decide)⟩

/-! ## Prompt-store invariants (claim C9) -/

theorem readPrompts_hasDefault (file : PromptsFile) (now : String)
    (h : hasDefault file) :
    ∃ p ∈ (readPrompts file now).1, p.id = "default" := by
  cases file with
  | missing => exact ⟨defaultPrompt now, by simp [readPrompts], rfl⟩
  | stored prompts => exact h
  | unreadable => exact h.elim

theorem readPrompts_state_hasDefault (file : PromptsFile) (now : String)
    (h : hasDefault file) : hasDefault (readPrompts file now).2 := by
  cases file with
  | missing => exact ⟨defaultPrompt now, by simp, rfl⟩
  | stored prompts => exact h
  | unreadable => exact h.elim

theorem replaceFirstById_preserves (prompts : List SystemPrompt)
    (id name content now d : String)
    (h : ∃ p ∈ prompts, p.id = d) :
    ∃ q ∈ replaceFirstById prompts id name content now, q.id = d := by
  induction prompts with
  | nil => simp at h
  | cons p rest ih =>
    obtain ⟨q, hq, hqd⟩ := h
    simp only [replaceFirstById]
    by_cases hp : p.id = id
    · rw [if_pos hp]
      rcases List.mem_cons.mp hq with h1 | h1
      · subst h1
        exact ⟨⟨q.id, name, content, q.createdAt, now⟩, List.mem_cons_self _ _, hqd⟩
      · exact ⟨q, List.mem_cons_of_mem _ h1, hqd⟩
    · rw [if_neg hp]
      rcases List.mem_cons.mp hq with h1 | h1
      · exact ⟨q, by rw [h1]; exact List.mem_cons_self _ _, hqd⟩
      · obtain ⟨q', hq', hd'⟩ := ih ⟨q, h1, hqd⟩
        exact ⟨q', List.mem_cons_of_mem _ hq', hd'⟩

theorem default_preserved_applyOp (file : PromptsFile) (op : PromptOp)
    (h : hasDefault file) : hasDefault (applyPromptOp file op) := by
  cases op with
  | create now newId name content =>
    simp only [applyPromptOp, createPromptRoute]
    by_cases h1 : name = ""
    · simpa [if_pos h1] using h
    · by_cases h2 : content = ""
      · simpa [if_neg h1, if_pos h2] using h
      · simp only [if_neg h1, if_neg h2, createPrompt]
        obtain ⟨p, hp, hd⟩ := readPrompts_hasDefault file now h
        exact ⟨p, List.mem_append_left _ hp, hd⟩
  | update now id name content =>
    simp only [applyPromptOp, updatePromptRoute]
    by_cases h1 : name = ""
    · simpa [if_pos h1] using h
    · by_cases h2 : content = ""
      · simpa [if_neg h1, if_pos h2] using h
      · simp only [if_neg h1, if_neg h2, updatePrompt]
        cases hf : (readPrompts file now).1.find? (fun p => p.id = id) with
        | none =>
          simp only [hf]
          exact readPrompts_state_hasDefault file now h
        | some p =>
          simp only [hf]
          exact replaceFirstById_preserves _ id name content now "default"
            (readPrompts_hasDefault file now h)
  | del now id =>
    simp only [applyPromptOp, deletePromptRoute]
    by_cases h1 : id = "default"
    · simpa [if_pos h1] using h
    · simp only [if_neg h1, deletePrompt]
      by_cases h2 : ((readPrompts file now).1.filter (fun p => p.id ≠ id)).length =
          (readPrompts file now).1.length
      · simp only [if_pos h2]
        split
        · exact readPrompts_state_hasDefault file now h
        · exact readPrompts_state_hasDefault file now h
      · simp only [if_neg h2]
        obtain ⟨p, hp, hd⟩ := readPrompts_hasDefault file now h
        have hmem : p ∈ (readPrompts file now).1.filter (fun p => p.id ≠ id) := by
          refine List.mem_filter.mpr ⟨hp, ?_⟩
          simp only [decide_eq_true_eq]
          rw [hd]
          exact fun he => h1 he.symm
        split
        · exact ⟨p, hmem, hd⟩
        · exact ⟨p, hmem, hd⟩

theorem default_preserved_applyOps : ∀ (ops : List PromptOp) (file : PromptsFile),
    hasDefault file → hasDefault (applyPromptOps file ops) := by
  intro ops
  induction ops with
  | nil => intro file h; simpa [applyPromptOps] using h
  | cons op ops ih =>
    intro file h
    have h1 := default_preserved_applyOp file op h
    simpa [applyPromptOps] using ih _ h1

/-- Claim C9: a DELETE for the prompt id `default` always answers 400 without
invoking deletion (the file is untouched), and consequently a prompt file holding
the default prompt (or missing, in which case every read reseeds it) still holds
it after any sequence of create, update and delete operations issued through the
public routes. -/
theorem C9_default_prompt_not_deletable :
    (∀ (file : PromptsFile) (now : String),
      deletePromptRoute file now "default" =
        (file, PromptRouteResult.badRequest "Cannot delete the default system prompt")) ∧
    (∀ (file : PromptsFile) (ops : List PromptOp),
      hasDefault file → hasDefault (applyPromptOps file ops)) := by
  refine ⟨fun file now => ?_, fun file ops h => default_preserved_applyOps ops file h⟩
  simp [deletePromptRoute]

/-- Witness for C9: the default prompt survives a delete attempt on it, a create,
an unrelated delete and an update of the default prompt. -/
theorem C9_witness :
    hasDefault (applyPromptOps (PromptsFile.stored [defaultPrompt "t0"])
      [PromptOp.del "t1" "default", PromptOp.create "t2" "id9" "N" "C",
       PromptOp.del "t3" "id9", PromptOp.update "t4" "default" "N2" "C2"]) :=
  C9_default_prompt_not_deletable.2 _ _ ⟨defaultPrompt "t0", by simp, rfl⟩

/-! ## Chat-route lemmas (claims C1, C6, C8) -/

theorem occursIn_head_mem {c : Char} {s l : List Char} (h : occursIn (c :: s) l) :
    c ∈ l := by
  obtain ⟨a, b, rfl⟩ := h
  simp

theorem chatPOST_conversation (file : PromptsFile) (now : String)
    (body : ChatRequestBody) (out : ChatSearchOutcome) (ok : Bool)
    (ms : List ChatMessage) (p : SystemPrompt)
    (hm : body.messages = some ms)
    (hp : (getPromptById file now (selectedPromptId body)).1 = some p) :
    chatPOST file now body out ok =
      if ok then
        ChatRouteResult.stream (selectedModel body)
          (⟨"system",
            enhancedSystemPrompt p.content body.graphRAG (chatGraphSearch out)⟩ :: ms)
      else ChatRouteResult.errorResponse "Failed to get response from Ollama" 500 := by
  simp [chatPOST, hm, hp]

/-- Claim C1 is false on the code as to where the degradation is marked: with
retrieval enabled and the retrieval subprocess failing, the call indeed succeeds
in no-external-context mode, but the explicit note lands only in the system
prompt handed to Ollama - the 200 response body is the verbatim model stream, to
which the route adds no flag or note (here a model output with no note in it). -/
theorem C1_counterexample :
    chatPOST (PromptsFile.stored [⟨"default", "Default", "base", "t", "t"⟩]) "t"
        ⟨none, some [⟨"user", "hi"⟩], none, none, true⟩
        (ChatSearchOutcome.procError "spawn python3 ENOENT") true =
      ChatRouteResult.stream DEFAULT_MODEL
        (⟨"system", "base" ++ NO_CONTEXT_NOTE⟩ :: [⟨"user", "hi"⟩]) ∧
    chatStreamResponseBody "The answer is 42." = "The answer is 42." ∧
    ¬ occursIn ('(' :: 'N' :: 'o' :: 't' :: 'e' :: ':' :: [])
        (chatStreamResponseBody "The answer is 42.").data := by
  refine ⟨by decide, rfl, ?_⟩
  intro h
  exact absurd (occursIn_head_mem h) (by decide)

/-- Claim C1 amended: when retrieval is enabled and the retrieval step fails
(subprocess error event, nonzero exit, or unparseable output), the chat call does
not fail: it proceeds to the model call with no external context and an explicit
degradation note appended to the system prompt sent to the model; the HTTP
response itself is the verbatim model stream and carries no server-added flag. -/
theorem C1_retrieval_failure_degrades :
    (∀ (file : PromptsFile) (now : String) (body : ChatRequestBody)
       (out : ChatSearchOutcome) (ms : List ChatMessage) (p : SystemPrompt),
       body.graphRAG = true → out.failed = true → body.messages = some ms →
       (getPromptById file now (selectedPromptId body)).1 = some p →
       chatPOST file now body out true =
         ChatRouteResult.stream (selectedModel body)
           (⟨"system", p.content ++ NO_CONTEXT_NOTE⟩ :: ms)) ∧
    (∀ s : String, chatStreamResponseBody s = s) := by
  refine ⟨?_, fun s => rfl⟩
  intro file now body out ms p hg hf hm hp
  have hctx : (chatGraphSearch out).context = none := by
    cases out with
    | exitOkParsed rows => simp [ChatSearchOutcome.failed] at hf
    | exitOkUnparseable => rfl
    | exitNonzero s => rfl
    | procError m => rfl
  rw [chatPOST_conversation file now body out true ms p hm hp]
  simp [enhancedSystemPrompt, hg, hctx]

/-- Witness for the amended C1: a concrete failing retrieval subprocess, with the
call answering a model stream whose system prompt carries the no-context note. -/
theorem C1_witness :
    chatPOST (PromptsFile.stored [⟨"default", "Default", "base", "t", "t"⟩]) "t"
        ⟨none, some [⟨"user", "hi"⟩], none, none, true⟩
        (ChatSearchOutcome.procError "spawn python3 ENOENT") true =
      ChatRouteResult.stream DEFAULT_MODEL
        (⟨"system", "base" ++ NO_CONTEXT_NOTE⟩ :: [⟨"user", "hi"⟩]) :=
  C1_retrieval_failure_degrades.1
    (PromptsFile.stored [⟨"default", "Default", "base", "t", "t"⟩]) "t"
    ⟨none, some [⟨"user", "hi"⟩], none, none, true⟩
    (ChatSearchOutcome.procError "spawn python3 ENOENT")
    [⟨"user", "hi"⟩] ⟨"default", "Default", "base", "t", "t"⟩
    rfl (by decide) rfl (by decide)

/-- Claim C6: when the language-model call fails, the whole chat call fails with a
surfaced error; no stream of answer text is ever produced in that case. -/
theorem C6_llm_failure_is_fatal :
    (∀ (file : PromptsFile) (now : String) (body : ChatRequestBody)
       (out : ChatSearchOutcome) (m : String) (msgs : List ChatMessage),
       chatPOST file now body out false ≠ ChatRouteResult.stream m msgs) ∧
    (∀ (file : PromptsFile) (now : String) (body : ChatRequestBody)
       (out : ChatSearchOutcome) (ms : List ChatMessage) (p : SystemPrompt),
       body.messages = some ms →
       (getPromptById file now (selectedPromptId body)).1 = some p →
       chatPOST file now body out false =
         ChatRouteResult.errorResponse "Failed to get response from Ollama" 500) := by
  constructor
  · intro file now body out m msgs
    unfold chatPOST
    cases hm : body.messages with
    | some ms =>
      cases hp : (getPromptById file now (selectedPromptId body)).1 <;> simp [hp]
    | none =>
      cases hmsg : body.message with
      | none => simp
      | some m0 =>
        by_cases hz : m0 = ""
        · simp [hz]
        · cases hp : (getPromptById file now (selectedPromptId body)).1 <;>
            simp [hz, hp]
  · intro file now body out ms p hm hp
    rw [chatPOST_conversation file now body out false ms p hm hp]
    simp

/-- Witness for C6 at a concrete failing Ollama call. -/
theorem C6_witness :
    chatPOST (PromptsFile.stored [⟨"default", "Default", "base", "t", "t"⟩]) "t"
        ⟨none, some [⟨"user", "hi"⟩], none, none, false⟩
        (ChatSearchOutcome.exitOkParsed []) false =
      ChatRouteResult.errorResponse "Failed to get response from Ollama" 500 :=
  C6_llm_failure_is_fatal.2
    (PromptsFile.stored [⟨"default", "Default", "base", "t", "t"⟩]) "t"
    ⟨none, some [⟨"user", "hi"⟩], none, none, false⟩
    (ChatSearchOutcome.exitOkParsed []) [⟨"user", "hi"⟩]
    ⟨"default", "Default", "base", "t", "t"⟩ rfl (by decide)

/-- Claim C8 is false on the code: with twelve history messages supplied, all
twelve enter the prompt (thirteen messages counting the system message) - there is
no defensive cap in the route, and the `Chat.tsx` caller passes the entire prior
history unchanged, far beyond the four-message window used by the other client. -/
theorem C8_counterexample :
    chatPOST (PromptsFile.stored [⟨"default", "Default", "base", "t", "t"⟩]) "t"
        ⟨none, some (List.replicate 12 ⟨"user", "m"⟩), none, none, false⟩
        (ChatSearchOutcome.exitOkParsed []) true =
      ChatRouteResult.stream DEFAULT_MODEL
        (⟨"system", "base"⟩ :: List.replicate 12 ⟨"user", "m"⟩) ∧
    (⟨"system", "base"⟩ :: List.replicate 12 (⟨"user", "m"⟩ : ChatMessage)).length = 13 ∧
    chatTsxHistory (List.replicate 12 ⟨"user", "m"⟩) ⟨"user", "new"⟩ =
      List.replicate 12 ⟨"user", "m"⟩ ∧
    4 < (List.replicate 12 (⟨"user", "m"⟩ : ChatMessage)).length := by
  refine ⟨by decide, by decide, by decide, by decide⟩

/-- Claim C8 amended: the chat route applies no history cap - in conversation mode
every supplied message enters the prompt, so the prompt message count is always the
full history length plus one; the `Chat.tsx` caller supplies the entire prior
history untrimmed; only the separate `part_003` client (which talks to a different
backend) windows its history to the last four messages. -/
theorem C8_amended :
    (∀ (file : PromptsFile) (now : String) (body : ChatRequestBody)
       (out : ChatSearchOutcome) (ms : List ChatMessage) (p : SystemPrompt)
       (m : String) (msgs : List ChatMessage),
       body.messages = some ms →
       (getPromptById file now (selectedPromptId body)).1 = some p →
       chatPOST file now body out true = ChatRouteResult.stream m msgs →
       msgs.length = ms.length + 1) ∧
    (∀ (messages : List ChatMessage) (u : ChatMessage),
       chatTsxHistory messages u = messages) ∧
    (∀ messages : List ChatMessage,
       (chatInterfaceHistory messages).length = min messages.length 4) := by
  refine ⟨?_, ?_, ?_⟩
  · intro file now body out ms p m msgs hm hp hs
    rw [chatPOST_conversation file now body out true ms p hm hp] at hs
    simp only [if_pos, if_true, ChatRouteResult.stream.injEq] at hs
    rw [← hs.2]
    simp
  · intro messages u
    simp [chatTsxHistory]
  · intro messages
    simp only [chatInterfaceHistory, List.length_drop]
    omega

/-- Witness for the amended C8 at a concrete two-message history. -/
theorem C8_amended_witness :
    ((⟨"system", "base"⟩ : ChatMessage) ::
        List.replicate 2 (⟨"user", "m"⟩ : ChatMessage)).length =
      (List.replicate 2 (⟨"user", "m"⟩ : ChatMessage)).length + 1 :=
  C8_amended.1 (PromptsFile.stored [⟨"default", "Default", "base", "t", "t"⟩]) "t"
    ⟨none, some (List.replicate 2 ⟨"user", "m"⟩), none, none, false⟩
    (ChatSearchOutcome.exitOkParsed []) (List.replicate 2 ⟨"user", "m"⟩)
    ⟨"default", "Default", "base", "t", "t"⟩ DEFAULT_MODEL
    (⟨"system", "base"⟩ :: List.replicate 2 ⟨"user", "m"⟩) rfl (by decide) (by decide)

/-! ## Search-route timeout behaviour (claim C2) -/

/-- Claim C2 is false on the code: retrieval is one subprocess guarded by a single
30-second timer; when the timer fires the route answers HTTP 500 rather than
returning any surviving candidates, and 30000 ms is outside the claimed 2-5 second
per-branch range. -/
theorem C2_counterexample :
    graphRagSearchPOST (some "q") 5 PyProcOutcome.timeout =
      SearchRouteResult.errorResponse "Failed to retrieve chat context" 500 ∧
    RETRIEVAL_TIMEOUT_MS = 30000 ∧
    ¬(2000 ≤ RETRIEVAL_TIMEOUT_MS ∧ RETRIEVAL_TIMEOUT_MS ≤ 5000) := by
  refine ⟨by decide, rfl, by decide⟩

/-- Claim C2 amended: there is one retrieval subprocess with a single 30-second
overall timeout, and a timeout fails the whole query with a 500 error response;
no per-branch timeout and no surviving-branch degradation exist. -/
theorem C2_amended :
    (∀ (q : String) (limit : Nat), q ≠ "" →
       graphRagSearchPOST (some q) limit PyProcOutcome.timeout =
         SearchRouteResult.errorResponse "Failed to retrieve chat context" 500) ∧
    RETRIEVAL_TIMEOUT_MS = 30000 := by
  refine ⟨?_, rfl⟩
  intro q limit hq
  simp [graphRagSearchPOST, hq, runPythonScriptSearch]

/-- Witness for the amended C2 at a concrete query. -/
theorem C2_witness :
    graphRagSearchPOST (some "hello") 3 PyProcOutcome.timeout =
      SearchRouteResult.errorResponse "Failed to retrieve chat context" 500 :=
  C2_amended.1 "hello" 3 (by decide)

/-! ## Ingest-route lemmas (claims C3, C4) -/

theorem validSessionEntry_skip_invalid (s : IngestSession) (pre post : List ChatMessage)
    (m : ChatMessage) (hm : isValidIngestMessage m = false) :
    validSessionEntry ⟨s.id, s.title, some (pre ++ m :: post), s.model, s.promptId⟩ =
      validSessionEntry ⟨s.id, s.title, some (pre ++ post), s.model, s.promptId⟩ := by
  simp only [validSessionEntry]
  by_cases hid : s.id = ""
  · simp [hid]
  · simp only [if_neg hid]
    have hfilter : (pre ++ m :: post).filter isValidIngestMessage =
        (pre ++ post).filter isValidIngestMessage := by
      simp [List.filter_append, List.filter_cons, hm]
    by_cases hpp : (pre ++ post).length = 0
    · have hpre : pre = [] := by
        have := List.length_append pre post
        cases pre with
        | nil => rfl
        | cons x xs => simp at hpp
      have hpost : post = [] := by
        cases post with
        | nil => rfl
        | cons x xs => simp at hpp
      subst hpre; subst hpost
      simp [List.filter_cons, hm]
    · have h1 : ¬((pre ++ m :: post).length = 0) := by simp
      simp only [if_neg h1, if_neg hpp, hfilter]

/-- Claim C3 is false on the code: the ingest response has no `skipped` field at
all.  A whitespace-only message is silently filtered out: the response to a batch
containing one is identical to the response to the same batch without it, and the
success payload carries only `message`, `processed_count` (which counts valid
sessions, not rows) and `sessions_processed`. -/
theorem C3_counterexample :
    ingestChatHistoryPOST
        (some [⟨"s1", "T", some [⟨"user", " "⟩, ⟨"user", "hello"⟩], "m", "default"⟩])
        true true (IngestScriptOutcome.okParsed ⟨some 1, none, none⟩) =
      IngestRouteResult.success
        "Chat history stored as JSON and embeddings generated successfully" 1 1 ∧
    ingestChatHistoryPOST
        (some [⟨"s1", "T", some [⟨"user", " "⟩, ⟨"user", "hello"⟩], "m", "default"⟩])
        true true (IngestScriptOutcome.okParsed ⟨some 1, none, none⟩) =
      ingestChatHistoryPOST
        (some [⟨"s1", "T", some [⟨"user", "hello"⟩], "m", "default"⟩])
        true true (IngestScriptOutcome.okParsed ⟨some 1, none, none⟩) :=
  ⟨by decide, by decide⟩

/-- Claim C3 amended: a message with empty or whitespace-only text (or empty role)
is filtered out before ingestion and is counted nowhere - inserting such a message
into any session of any batch leaves the route's response unchanged; in particular
no `skipped` count exists and `processed_count` is unaffected. -/
theorem C3_amended (a b : List IngestSession) (s : IngestSession)
    (pre post : List ChatMessage) (m : ChatMessage)
    (scriptExists fsOk : Bool) (out : IngestScriptOutcome)
    (hm : isValidIngestMessage m = false) :
    ingestChatHistoryPOST
        (some (a ++ ⟨s.id, s.title, some (pre ++ m :: post), s.model, s.promptId⟩ :: b))
        scriptExists fsOk out =
      ingestChatHistoryPOST
        (some (a ++ ⟨s.id, s.title, some (pre ++ post), s.model, s.promptId⟩ :: b))
        scriptExists fsOk out := by
  have hentry := validSessionEntry_skip_invalid s pre post m hm
  have hv : validSessionsOf
      (a ++ ⟨s.id, s.title, some (pre ++ m :: post), s.model, s.promptId⟩ :: b) =
      validSessionsOf
        (a ++ ⟨s.id, s.title, some (pre ++ post), s.model, s.promptId⟩ :: b) := by
    simp [validSessionsOf, List.filterMap_append, List.filterMap_cons, hentry]
  simp [ingestChatHistoryPOST, hv]

/-- Witness for the amended C3: inserting one whitespace-only message into a
concrete batch leaves the response unchanged. -/
theorem C3_amended_witness :
    ingestChatHistoryPOST
        (some ([] ++ ⟨"s2", "T", some ([] ++ ⟨"user", "  "⟩ :: [⟨"user", "ok"⟩]), "m", "d"⟩ :: []))
        true true IngestScriptOutcome.okEmpty =
      ingestChatHistoryPOST
        (some ([] ++ ⟨"s2", "T", some ([] ++ [⟨"user", "ok"⟩]), "m", "d"⟩ :: []))
        true true IngestScriptOutcome.okEmpty :=
  C3_amended [] [] ⟨"s2", "T", none, "m", "d"⟩ [] [⟨"user", "ok"⟩] ⟨"user", "  "⟩
    true true IngestScriptOutcome.okEmpty (by decide)

/-- Claim C4 is false on the code: a session whose `id` field is missing (falsy) is
dropped silently, no response shape carries `processed`/`skipped`/`errors` fields,
and a batch left with no valid session aborts wholesale with a 400 error. -/
theorem C4_counterexample :
    ingestChatHistoryPOST (some [⟨"", "T", some [⟨"user", "hello"⟩], "m", "default"⟩])
        true true (IngestScriptOutcome.okParsed ⟨some 1, none, none⟩) =
      IngestRouteResult.noValidSessions 0 1 := by decide

/-- Claim C4 amended: the ingest response carries `processed_count` and
`sessions_processed` only; a session with a falsy id is silently dropped by the
validation pass; a batch with no valid session fails wholesale with the 400
`noValidSessions` response, and otherwise the result is determined by the
subprocess outcome with `processed_count` equal to the number of valid sessions. -/
theorem C4_amended :
    (∀ (sessions : List IngestSession) (se fs : Bool) (out : IngestScriptOutcome),
       validSessionsOf sessions = [] →
       ingestChatHistoryPOST (some sessions) se fs out =
         IngestRouteResult.noValidSessions 0 sessions.length) ∧
    (∀ s : IngestSession, s.id = "" → validSessionEntry s = none) ∧
    (∀ (sessions : List IngestSession) (out : IngestScriptOutcome),
       validSessionsOf sessions ≠ [] →
       ingestChatHistoryPOST (some sessions) true true out =
         (match (runPythonScriptIngest out).error with
          | some e => IngestRouteResult.ingestFailed "Failed to ingest chat history" e
          | none => IngestRouteResult.success
              "Chat history stored as JSON and embeddings generated successfully"
              (validSessionsOf sessions).length sessions.length)) := by
  refine ⟨?_, ?_, ?_⟩
  · intro sessions se fs out h
    simp [ingestChatHistoryPOST, h]
  · intro s hs
    cases hm : s.messages <;> simp [validSessionEntry, hm, hs]
  · intro sessions out h
    have hlen : ¬((validSessionsOf sessions).length = 0) := by
      simpa [List.length_eq_zero] using h
    cases he : (runPythonScriptIngest out).error <;>
      simp [ingestChatHistoryPOST, hlen, he]

/-- Witness for the amended C4: a batch whose only session has a falsy id aborts
with the 400 response. -/
theorem C4_witness :
    ingestChatHistoryPOST (some [⟨"", "T", some [⟨"user", "x"⟩], "m", "d"⟩]) false true
        IngestScriptOutcome.okEmpty =
      IngestRouteResult.noValidSessions 0 1 :=
  C4_amended.1 [⟨"", "T", some [⟨"user", "x"⟩], "m", "d"⟩] false true
    IngestScriptOutcome.okEmpty (by decide)

/-! ## Truncation and citation keys (claim C5) -/

theorem digitChar_toNat_le (n : Nat) : (digitChar n).toNat ≤ 57 := by
  unfold digitChar
  split_ifs <;> decide

theorem natCharsAux_chars : ∀ (fuel n : Nat) (acc : List Char),
    (∀ c ∈ acc, c.toNat ≤ 57) → ∀ c ∈ natCharsAux fuel n acc, c.toNat ≤ 57 := by
  intro fuel
  induction fuel with
  | zero => intro n acc hacc c hc; exact hacc c hc
  | succ k ih =>
    intro n acc hacc c hc
    simp only [natCharsAux] at hc
    by_cases hn : n < 10
    · rw [if_pos hn] at hc
      rcases List.mem_cons.mp hc with h1 | h1
      · rw [h1]; exact digitChar_toNat_le _
      · exact hacc c h1
    · rw [if_neg hn] at hc
      refine ih (n / 10) _ ?_ c hc
      intro d hd
      rcases List.mem_cons.mp hd with h1 | h1
      · rw [h1]; exact digitChar_toNat_le _
      · exact hacc d h1

theorem natToChars_chars (n : Nat) : ∀ c ∈ natToChars n, c.toNat ≤ 57 :=
  natCharsAux_chars (n + 1) n [] (by simp)

theorem intToChars_chars (i : Int) : ∀ c ∈ intToChars i, c.toNat ≤ 57 := by
  cases i with
  | ofNat m => exact natToChars_chars m
  | negSucc m =>
    intro c hc
    rcases List.mem_cons.mp hc with h1 | h1
    · rw [h1]; decide
    · exact natToChars_chars _ c h1

theorem toFixedOne_chars (q : ℚ) : ∀ c ∈ toFixedOne q, c.toNat ≤ 57 := by
  intro c hc
  simp only [toFixedOne] at hc
  rcases List.mem_append.mp hc with h1 | h1
  · exact intToChars_chars _ c h1
  · rcases List.mem_cons.mp h1 with h2 | h2
    · rw [h2]; decide
    · exact intToChars_chars _ c h2

theorem formatContextItem_data (r : SearchRow) :
    (formatContextItem r).data =
      "From conversation \"".data ++ r.session_title.data ++ "\":\n\nRole: ".data ++
      r.role.data ++ "\nContent: ".data ++ (truncatedContent r.content).data ++
      "\n\nRelevance: ".data ++ toFixedOne (r.relevance_score * 100) ++ "%".data := by
  simp [formatContextItem, String.data_append]

/-- Claim C5 is false on the code: the per-item prompt context identifies an item
by session title only - the document id (`session_id`) does not occur in the item
placed into the prompt, and the search route's success response carries only those
context strings (the metadata holding the id is computed and then dropped), so the
id cannot serve as a citation key in the final response. -/
theorem C5_counterexample :
    ¬ occursIn ('z' :: 'z' :: 'z' :: [])
        (formatContextItem ⟨"zzz", "T", 0, "user",
          String.mk (List.replicate 401 'a'), 0, "c"⟩).data ∧
    graphRagSearchPOST (some "q") 5
        (PyProcOutcome.exitOkParsed [⟨"zzz", "T", 0, "user",
          String.mk (List.replicate 401 'a'), 0, "c"⟩]) =
      SearchRouteResult.ok
        (some [formatContextItem ⟨"zzz", "T", 0, "user",
          String.mk (List.replicate 401 'a'), 0, "c"⟩]) "q" 5 ∧
    400 < (String.mk (List.replicate 401 'a')).data.length := by
  refine ⟨?_, by simp [graphRagSearchPOST, runPythonScriptSearch], by decide⟩
  intro hocc
  have hz := occursIn_head_mem hocc
  rw [formatContextItem_data] at hz
  simp only [List.mem_append] at hz
  rcases hz with ((((((((h | h) | h) | h) | h) | h) | h) | h) | h)
  · exact absurd h (by decide)
  · exact absurd h (by decide)
  · exact absurd h (by decide)
  · exact absurd h (by decide)
  · exact absurd h (by decide)
  · exact absurd h (by decide)
  · exact absurd h (by decide)
  · have h57 := toFixedOne_chars _ 'z' h
    revert h57
    decide
  · exact absurd h (by decide)

/-- Claim C5 amended: items longer than the 400-character budget are truncated to
the budget with an explicit `...` marker and shorter items pass unchanged with no
marker; the `session_id` is preserved unmodified in the computed metadata object -
but that metadata is not part of the prompt item and is dropped from the search
route's response, so the id is not a citation key in any final response. -/
theorem C5_amended :
    (∀ r : SearchRow, 400 < r.content.data.length →
       (truncatedContent r.content).data =
         r.content.data.take 400 ++ '.' :: '.' :: '.' :: [] ∧
       (metadataOf r).session_id = r.session_id) ∧
    (∀ r : SearchRow, r.content.data.length ≤ 400 →
       truncatedContent r.content = r.content) := by
  constructor
  · intro r h
    refine ⟨?_, rfl⟩
    have h' : 400 < r.content.length := h
    simp [truncatedContent, jsSubstringTo, String.data_append, h, h']
  · intro r h
    have hnot : ¬(400 < r.content.data.length) := by omega
    simp only [truncatedContent, jsSubstringTo, if_neg hnot]
    rw [List.take_of_length_le h]
    apply String.ext
    rw [String.data_append]
    simp

/-- Witness for the amended C5: a five-character item passes through unchanged, and
the metadata of an over-budget item keeps its id. -/
theorem C5_witness :
    truncatedContent (SearchRow.content ⟨"i", "t", 0, "user", "short", 0, "c"⟩) =
      SearchRow.content ⟨"i", "t", 0, "user", "short", 0, "c"⟩ ∧
    (metadataOf ⟨"zq", "T", 0, "user",
        String.mk (List.replicate 401 'a'), 0, "c"⟩).session_id = "zq" :=
  ⟨C5_amended.2 ⟨"i", "t", 0, "user", "short", 0, "c"⟩ (by decide),
   (C5_amended.1 ⟨"zq", "T", 0, "user",
      String.mk (List.replicate 401 'a'), 0, "c"⟩ (by decide)).2⟩

/-! ## Error propagation (claim C7) -/

/-- Claim C7 is false on the code: error responses are structured JSON objects, but
they embed the raw upstream failure text verbatim - the ingest route returns the
subprocess stderr as `details`, and the TTS route returns the thrown error's
`message` as `error`. -/
theorem C7_counterexample :
    ingestChatHistoryPOST (some [⟨"s1", "T", some [⟨"user", "hello"⟩], "m", "default"⟩])
        true true
        (IngestScriptOutcome.exitNonzero 1 "Traceback (most recent call last): boom" "") =
      IngestRouteResult.ingestFailed "Failed to ingest chat history"
        "Traceback (most recent call last): boom" ∧
    ttsPOST (some "hi") (TtsOutcome.errMessage "ENOENT: python3 not found") =
      TtsRouteResult.errorResponse false "ENOENT: python3 not found" 500 :=
  ⟨by decide, by decide⟩

/-- Claim C7 amended: failures surface as structured JSON error objects with a
fixed description, but the raw upstream subprocess stderr (ingest route) or
exception message (TTS route) is included verbatim in the `details`/`error`
fields. -/
theorem C7_amended :
    (∀ (sessions : List IngestSession) (code : Int) (stderr stdout : String),
       validSessionsOf sessions ≠ [] → stderr ≠ "" →
       ingestChatHistoryPOST (some sessions) true true
           (IngestScriptOutcome.exitNonzero code stderr stdout) =
         IngestRouteResult.ingestFailed "Failed to ingest chat history" stderr) ∧
    (∀ (t msg : String), t ≠ "" →
       ttsPOST (some t) (TtsOutcome.errMessage msg) =
         TtsRouteResult.errorResponse false msg 500) := by
  constructor
  · intro sessions code stderr stdout h hs
    have hlen : ¬((validSessionsOf sessions).length = 0) := by
      simpa [List.length_eq_zero] using h
    simp [ingestChatHistoryPOST, hlen, runPythonScriptIngest, hs]
  · intro t msg ht
    simp [ttsPOST, ht]

/-- Witness for the amended C7 at concrete failing calls. -/
theorem C7_witness :
    ttsPOST (some "hello") (TtsOutcome.errMessage "boom") =
      TtsRouteResult.errorResponse false "boom" 500 :=
  C7_amended.2 "hello" "boom" (by decide)

end SteinBot
